import Mathlib

/-!
Shallow embedding of the simulation core of `src/main.cpp` ("2 Player Lines
Game"), desktop configuration (`WIDTH = 640`, `HEIGHT = 480`).

Floating-point quantities are modelled over `ℚ`; the randomness sources are
modelled by explicit parameters: `random_float lo hi t` takes the value
`t = rand()/RAND_MAX ∈ [0,1]` of the underlying generator as an argument, and
the random heading of a hazard is passed as the pair `(cos θ, sin θ)` of the
sampled angle.  The pixel-readback occupancy test (`checkAreaCollision`, which
reads the framebuffer) is modelled as an abstract oracle `occ : Vec2 → Bool`
supplied to the player update.  Wall-clock timers (`get_time`) are modelled as
Boolean "elapsed" inputs per frame.
-/

namespace LinesGame

/-- Field width, desktop branch of `main.cpp` (line 96). -/
def WIDTH : ℚ := 640

/-- Field height, desktop branch of `main.cpp` (line 96). -/
def HEIGHT : ℚ := 480

/-- `SCALE_X = WIDTH / 320.0f` (line 100). -/
def SCALE_X : ℚ := WIDTH / 320

/-- `SCALE_Y = HEIGHT / 200.0f` (line 101). -/
def SCALE_Y : ℚ := HEIGHT / 200

/-- `SCALE = std::min(SCALE_X, SCALE_Y)` (line 102). -/
def SCALE : ℚ := min SCALE_X SCALE_Y

/-- `PLAYER_SPEED = 100.0f * SCALE` (line 105). -/
def PLAYER_SPEED : ℚ := 100 * SCALE

/-- `CIRCLE_SPEED = 150.0f * SCALE` (line 106). -/
def CIRCLE_SPEED : ℚ := 150 * SCALE

/-- `CIRCLE_RADIUS = 22.5f * SCALE` (line 110). -/
def CIRCLE_RADIUS : ℚ := (45 / 2) * SCALE

/-- `COLLECTIBLE_SIZE = CIRCLE_RADIUS * 2.0f` (line 111). -/
def COLLECTIBLE_SIZE : ℚ := CIRCLE_RADIUS * 2

/-- `BLACK_CIRCLE_SIZE = COLLECTIBLE_SIZE` (line 112). -/
def BLACK_CIRCLE_SIZE : ℚ := COLLECTIBLE_SIZE

/-- `BLACK_SQUARE_SIZE = COLLECTIBLE_SIZE * 2.5f` (line 113). -/
def BLACK_SQUARE_SIZE : ℚ := COLLECTIBLE_SIZE * (5 / 2)

/-- `COLLISION_CHECK_SIZE = 2.5f * SCALE` (line 114). -/
def COLLISION_CHECK_SIZE : ℚ := (5 / 2) * SCALE

/-- 2D vector, `struct Vec2` (lines 116-121). -/
structure Vec2 where
  x : ℚ
  y : ℚ
deriving DecidableEq

/-- `Vec2::operator+` (line 119). -/
def Vec2.add (a b : Vec2) : Vec2 := ⟨a.x + b.x, a.y + b.y⟩

/-- `Vec2::operator*` (scalar on the right, line 120). -/
def Vec2.smul (a : Vec2) (s : ℚ) : Vec2 := ⟨a.x * s, a.y * s⟩

instance : Add Vec2 := ⟨Vec2.add⟩

instance : HMul Vec2 ℚ Vec2 := ⟨Vec2.smul⟩

@[simp] theorem Vec2.add_def (a b : Vec2) : a + b = ⟨a.x + b.x, a.y + b.y⟩ := rfl

@[simp] theorem Vec2.smul_def (a : Vec2) (s : ℚ) : a * s = ⟨a.x * s, a.y * s⟩ := rfl

/-- `struct Player` (lines 123-131); the `SDL_Color` field is rendering-only
and omitted. -/
structure Player where
  pos : Vec2
  direction : Vec2
  trail : List Vec2
  alive : Bool
  willDie : Bool
  hasMoved : Bool
deriving DecidableEq

/-- `struct Circle`, the moving hazard (lines 133-137). -/
structure Circle where
  pos : Vec2
  vel : Vec2
  radius : ℚ
deriving DecidableEq

/-- `struct Collectible` (lines 139-144). -/
structure Collectible where
  pos : Vec2
  size : ℚ
  blackCircleSize : ℚ
  blackSquareSize : ℚ
deriving DecidableEq

/-- `random_float(min, max)` (lines 181-190).  The generator draw is made
explicit: `t` stands for the sampled fraction `rand()/RAND_MAX ∈ [0,1]`, so the
function returns `min + (max - min) * t`. -/
def random_float (lo hi t : ℚ) : ℚ := lo + (hi - lo) * t

/-- `checkCollectibleCollision(playerPos, collectible)` (lines 373-379): an
axis-aligned box test of half side `collectible.size / 2` around the
collectible's position; the two larger extents are not consulted. -/
def checkCollectibleCollision (playerPos : Vec2) (c : Collectible) : Bool :=
  let halfSize := c.size / 2
  decide (playerPos.x ≥ c.pos.x - halfSize) && decide (playerPos.x ≤ c.pos.x + halfSize) &&
    decide (playerPos.y ≥ c.pos.y - halfSize) && decide (playerPos.y ≤ c.pos.y + halfSize)

/-- `spawnCollectible()` (lines 381-385); `tx, ty ∈ [0,1]` are the two
generator draws. -/
def spawnCollectible (tx ty : ℚ) : Collectible :=
  { pos := ⟨random_float (BLACK_SQUARE_SIZE / 2) (WIDTH - BLACK_SQUARE_SIZE / 2) tx,
            random_float (BLACK_SQUARE_SIZE / 2) (HEIGHT - BLACK_SQUARE_SIZE / 2) ty⟩,
    size := COLLECTIBLE_SIZE,
    blackCircleSize := BLACK_CIRCLE_SIZE,
    blackSquareSize := BLACK_SQUARE_SIZE }

/-- Hazard construction used at program start (lines 434-436), on the spawn
timer (lines 573-578) and on reset (lines 601-603): position uniform in
`[25*SCALE_X, WIDTH-25*SCALE_X] × [25*SCALE_Y, HEIGHT-25*SCALE_Y]`, velocity
`CIRCLE_SPEED * (cos θ, sin θ)` for a random angle θ; `ca, sa` stand for
`cos θ` and `sin θ`. -/
def spawnCircle (tx ty ca sa : ℚ) : Circle :=
  { pos := ⟨random_float (25 * SCALE_X) (WIDTH - 25 * SCALE_X) tx,
            random_float (25 * SCALE_Y) (HEIGHT - 25 * SCALE_Y) ty⟩,
    vel := ⟨CIRCLE_SPEED * ca, CIRCLE_SPEED * sa⟩,
    radius := CIRCLE_RADIUS }

/-- The proposed next position `nextPos = pos + direction * PLAYER_SPEED * dt`
(line 515). -/
def nextPos (p : Player) (dt : ℚ) : Vec2 := p.pos + p.direction * (PLAYER_SPEED * dt)

/-- The wall test on the proposed position (line 517):
`nextPos.x < 0 || nextPos.x > WIDTH || nextPos.y < 0 || nextPos.y > HEIGHT`. -/
def oobPos (v : Vec2) : Bool :=
  decide (v.x < 0) || decide (v.x > WIDTH) || decide (v.y < 0) || decide (v.y > HEIGHT)

/-- The value of `willDie` after the check phase of a live, not-yet-doomed
player (lines 516-527): wall contact dooms unconditionally; otherwise the
occupancy oracle `occ` (the pixel-readback `checkAreaCollision` of lines
520-526) is consulted only when `hasMoved` holds; otherwise `willDie` is left
as it was (`false` on this path). -/
def playerWillDieFlag (occ : Vec2 → Bool) (dt : ℚ) (p : Player) : Bool :=
  if oobPos (nextPos p dt) then true
  else if p.hasMoved then occ (nextPos p dt)
  else p.willDie

/-- Result of one player's slice of the update loop: the player itself, its
owner's score, and the (possibly respawned) collectible. -/
structure PlayerStep where
  player : Player
  score : ℕ
  collectible : Collectible
deriving DecidableEq

/-- One iteration of the per-player update loop (lines 512-541): a dead player
is skipped; a doomed (`willDie`) player is killed and skipped; otherwise the
check phase runs, the proposed position is committed (even when the check just
set `willDie`), appended to the trail, and the collectible test possibly
increments the owner's score and respawns the collectible (`tx, ty` are the
respawn draws). -/
def updatePlayer (occ : Vec2 → Bool) (dt : ℚ) (p : Player) (score : ℕ)
    (col : Collectible) (tx ty : ℚ) : PlayerStep :=
  if !p.alive then ⟨p, score, col⟩
  else if !p.willDie then
    let np := nextPos p dt
    let p2 : Player :=
      { p with willDie := playerWillDieFlag occ dt p, pos := np, trail := p.trail ++ [np] }
    if checkCollectibleCollision p2.pos col then ⟨p2, score + 1, spawnCollectible tx ty⟩
    else ⟨p2, score, col⟩
  else ⟨{ p with alive := false }, score, col⟩

/-- Hazard motion with boundary reflection (lines 543-552): integrate
`pos += vel * dt`; per axis, on penetration negate that axis's velocity
component and clamp the position into `[radius, extent - radius]` via
`std::max(radius, std::min(extent - radius, pos))`. -/
def updateCircle (dt : ℚ) (c : Circle) : Circle :=
  let moved : Circle := { c with pos := c.pos + c.vel * dt }
  let cx : Circle :=
    if moved.pos.x - moved.radius < 0 ∨ moved.pos.x + moved.radius > WIDTH then
      { moved with vel := ⟨-moved.vel.x, moved.vel.y⟩,
                   pos := ⟨max moved.radius (min (WIDTH - moved.radius) moved.pos.x),
                           moved.pos.y⟩ }
    else moved
  if cx.pos.y - cx.radius < 0 ∨ cx.pos.y + cx.radius > HEIGHT then
    { cx with vel := ⟨cx.vel.x, -cx.vel.y⟩,
              pos := ⟨cx.pos.x, max cx.radius (min (HEIGHT - cx.radius) cx.pos.y)⟩ }
  else cx

/-- Trail pruning by a hazard (lines 554-562): the erase/`remove_if` idiom
deletes every trail point `p` with `sqrt(dx*dx + dy*dy) < radius` where
`(dx, dy) = circle.pos - p`, keeping the survivors in order.  Since `ℚ` has no
square root, the removal condition is encoded in the equivalent squared form
`dx² + dy² < radius²` (equivalent for a nonnegative radius; every hazard has
radius `CIRCLE_RADIUS > 0`). -/
def pruneTrail (c : Circle) (trail : List Vec2) : List Vec2 :=
  trail.filter fun p =>
    let dx := c.pos.x - p.x
    let dy := c.pos.y - p.y
    !(decide (dx * dx + dy * dy < c.radius * c.radius))

/-- Result of the hazard loop: updated hazards and both pruned trails. -/
structure CirclesStep where
  circles : List Circle
  trail1 : List Vec2
  trail2 : List Vec2
deriving DecidableEq

/-- The hazard loop (lines 543-563): each hazard in order is moved/reflected
and then prunes both players' trails at its updated position. -/
def updateCircles (dt : ℚ) : List Circle → List Vec2 → List Vec2 → CirclesStep
  | [], t1, t2 => ⟨[], t1, t2⟩
  | c :: rest, t1, t2 =>
    let c2 := updateCircle dt c
    let tail := updateCircles dt rest (pruneTrail c2 t1) (pruneTrail c2 t2)
    ⟨c2 :: tail.circles, tail.trail1, tail.trail2⟩

/-- Whole-game state owned by the frame loop (lines 430-443); the wall-clock
time points are modelled as per-frame Boolean "elapsed" inputs instead of
fields. -/
structure GameState where
  player1 : Player
  player2 : Player
  circles : List Circle
  collectible : Collectible
  score1 : ℕ
  score2 : ℕ
  gameOver : Bool
  gameOverScreen : Bool

/-- `player1` as (re)initialized at lines 430 and 598. -/
def initialPlayer1 : Player :=
  { pos := ⟨100 * SCALE_X, HEIGHT / 2⟩, direction := ⟨1, 0⟩, trail := [],
    alive := true, willDie := false, hasMoved := false }

/-- `player2` as (re)initialized at lines 431 and 599. -/
def initialPlayer2 : Player :=
  { pos := ⟨WIDTH - 100 * SCALE_X, HEIGHT / 2⟩, direction := ⟨-1, 0⟩, trail := [],
    alive := true, willDie := false, hasMoved := false }

/-- Program-start state (lines 430-443): both players at their fixed mirrored
starts, exactly one freshly spawned hazard, one collectible, both scores zero,
both game-over flags clear. -/
def initialState (tx ty ca sa cx cy : ℚ) : GameState :=
  { player1 := initialPlayer1, player2 := initialPlayer2,
    circles := [spawnCircle tx ty ca sa],
    collectible := spawnCollectible cx cy,
    score1 := 0, score2 := 0, gameOver := false, gameOverScreen := false }

/-- End-of-tick round transition (lines 581-591): if some player is dead, set
both game-over flags; a sole survivor's own score gains `+3`; a simultaneous
death awards nothing. -/
def endOfRoundCheck (g : GameState) : GameState :=
  if !g.player1.alive || !g.player2.alive then
    if !g.player1.alive && g.player2.alive then
      { g with gameOver := true, gameOverScreen := true, score2 := g.score2 + 3 }
    else if !g.player2.alive && g.player1.alive then
      { g with gameOver := true, gameOverScreen := true, score1 := g.score1 + 3 }
    else { g with gameOver := true, gameOverScreen := true }
  else g

/-- Round reset (lines 594-612), taken after the game-over countdown elapses:
both players are reinstantiated, the hazard list is cleared and reseeded with
exactly one random hazard, the collectible respawns, and the game-over flags
are cleared.  The scores are not touched. -/
def resetRound (g : GameState) (tx ty ca sa cx cy : ℚ) : GameState :=
  { g with player1 := initialPlayer1, player2 := initialPlayer2,
           circles := [spawnCircle tx ty ca sa],
           collectible := spawnCollectible cx cy,
           gameOver := false, gameOverScreen := false }

/-- Per-tick inputs of the simulation block: the occupancy oracle seen by each
player's check (the framebuffer contents differ between the two checks), the
frame delta `dt`, the generator draws for a possible collectible respawn of
each player, and the 5-second hazard-spawn timer modelled as an "elapsed" flag
plus the draws for the new hazard. -/
structure TickInput where
  occ1 : Vec2 → Bool
  occ2 : Vec2 → Bool
  dt : ℚ
  col1x : ℚ
  col1y : ℚ
  col2x : ℚ
  col2y : ℚ
  spawnExpired : Bool
  spawnX : ℚ
  spawnY : ℚ
  spawnCos : ℚ
  spawnSin : ℚ

/-- One simulation tick (the body of `if (!gameOverScreen && !gameOver)`,
lines 512-591, after the steering phase): player 1 then player 2 run the
player loop (the collectible state threads through), the hazard loop moves
every hazard and prunes both trails, the spawn timer may append one new
hazard, and the round transition runs. -/
def simTick (inp : TickInput) (g : GameState) : GameState :=
  let s1 := updatePlayer inp.occ1 inp.dt g.player1 g.score1 g.collectible inp.col1x inp.col1y
  let s2 := updatePlayer inp.occ2 inp.dt g.player2 g.score2 s1.collectible inp.col2x inp.col2y
  let cs := updateCircles inp.dt g.circles s1.player.trail s2.player.trail
  let circles2 :=
    if inp.spawnExpired then
      cs.circles ++ [spawnCircle inp.spawnX inp.spawnY inp.spawnCos inp.spawnSin]
    else cs.circles
  endOfRoundCheck
    { player1 := { s1.player with trail := cs.trail1 },
      player2 := { s2.player with trail := cs.trail2 },
      circles := circles2,
      collectible := s2.collectible,
      score1 := s1.score, score2 := s2.score,
      gameOver := g.gameOver, gameOverScreen := g.gameOverScreen }

/-- Per-frame inputs: the tick inputs plus the game-over countdown (elapsed
flag) and the generator draws consumed by a reset. -/
structure FrameInput where
  tick : TickInput
  countdownElapsed : Bool
  resetCircleX : ℚ
  resetCircleY : ℚ
  resetCircleCos : ℚ
  resetCircleSin : ℚ
  resetColX : ℚ
  resetColY : ℚ

/-- One frame of the main loop (lines 485-612, simulation part): the
simulation tick runs only when neither game-over flag is set; otherwise, once
the countdown elapses, the round resets; otherwise the state is untouched
(rendering only). -/
def frameStep (f : FrameInput) (g : GameState) : GameState :=
  if !g.gameOverScreen && !g.gameOver then simTick f.tick g
  else if g.gameOverScreen && f.countdownElapsed then
    resetRound g f.resetCircleX f.resetCircleY f.resetCircleCos f.resetCircleSin
      f.resetColX f.resetColY
  else g

/-- `size_t` modulus: `drawTrail` does its index arithmetic in `size_t`. -/
def SIZE_T_MOD : ℕ := 2 ^ 64

/-- The loop bound of `drawTrail` (line 300):
`size_t start = std::max<size_t>(0, player.trail.size() - skipRecent);` with
the subtraction performed in `size_t` (i.e. modulo `2^64`) arithmetic.  The
drawing loop then runs `for (size_t i = 1; i < start; ++i)` reading
`trail[i-1]` and `trail[i]` (lines 301-306). -/
def drawTrailStart (trailLen skipRecent : ℕ) : ℕ :=
  max 0 (Int.toNat (((trailLen : ℤ) - (skipRecent : ℤ)) % (SIZE_T_MOD : ℤ)))

/-- Iteration `i` of the `drawTrail` loop executes (and hence reads trail
indices `i - 1` and `i`) exactly when `1 ≤ i < start`. -/
def drawTrailLoopRuns (trailLen skipRecent i : ℕ) : Bool :=
  decide (1 ≤ i) && decide (i < drawTrailStart trailLen skipRecent)

/-! Closed forms of the scaled constants in the desktop configuration. -/

theorem SCALE_X_eq : SCALE_X = 2 := by norm_num [SCALE_X, WIDTH]

theorem SCALE_Y_eq : SCALE_Y = 12 / 5 := by norm_num [SCALE_Y, HEIGHT]

theorem SCALE_eq : SCALE = 2 := by
  rw [SCALE, SCALE_X_eq, SCALE_Y_eq]
  norm_num [min_def]

theorem PLAYER_SPEED_eq : PLAYER_SPEED = 200 := by rw [PLAYER_SPEED, SCALE_eq]; norm_num

theorem CIRCLE_SPEED_eq : CIRCLE_SPEED = 300 := by rw [CIRCLE_SPEED, SCALE_eq]; norm_num

theorem CIRCLE_RADIUS_eq : CIRCLE_RADIUS = 45 := by rw [CIRCLE_RADIUS, SCALE_eq]; norm_num

theorem COLLECTIBLE_SIZE_eq : COLLECTIBLE_SIZE = 90 := by
  rw [COLLECTIBLE_SIZE, CIRCLE_RADIUS_eq]; norm_num

theorem BLACK_CIRCLE_SIZE_eq : BLACK_CIRCLE_SIZE = 90 := by
  rw [BLACK_CIRCLE_SIZE, COLLECTIBLE_SIZE_eq]

theorem BLACK_SQUARE_SIZE_eq : BLACK_SQUARE_SIZE = 225 := by
  rw [BLACK_SQUARE_SIZE, COLLECTIBLE_SIZE_eq]; norm_num

/-! Helper lemmas about the embedded operations. -/

theorem endOfRoundCheck_player1 (g : GameState) : (endOfRoundCheck g).player1 = g.player1 := by
  unfold endOfRoundCheck
  split_ifs <;> rfl

theorem endOfRoundCheck_player2 (g : GameState) : (endOfRoundCheck g).player2 = g.player2 := by
  unfold endOfRoundCheck
  split_ifs <;> rfl

theorem endOfRoundCheck_score1_mono (g : GameState) : g.score1 ≤ (endOfRoundCheck g).score1 := by
  unfold endOfRoundCheck
  split_ifs <;> simp

theorem endOfRoundCheck_score2_mono (g : GameState) : g.score2 ≤ (endOfRoundCheck g).score2 := by
  unfold endOfRoundCheck
  split_ifs <;> simp

theorem endOfRoundCheck_score1_mono_of_eq (g : GameState) (n : ℕ) (h : g.score1 = n) :
    n ≤ (endOfRoundCheck g).score1 := h ▸ endOfRoundCheck_score1_mono g

theorem endOfRoundCheck_score2_mono_of_eq (g : GameState) (n : ℕ) (h : g.score2 = n) :
    n ≤ (endOfRoundCheck g).score2 := h ▸ endOfRoundCheck_score2_mono g

theorem updatePlayer_dead (occ : Vec2 → Bool) (dt : ℚ) (p : Player) (score : ℕ)
    (col : Collectible) (tx ty : ℚ) (ha : p.alive = false) :
    updatePlayer occ dt p score col tx ty = ⟨p, score, col⟩ := by
  simp [updatePlayer, ha]

theorem updatePlayer_doomed (occ : Vec2 → Bool) (dt : ℚ) (p : Player) (score : ℕ)
    (col : Collectible) (tx ty : ℚ) (ha : p.alive = true) (hw : p.willDie = true) :
    updatePlayer occ dt p score col tx ty = ⟨{ p with alive := false }, score, col⟩ := by
  simp [updatePlayer, ha, hw]

theorem updatePlayer_move_player (occ : Vec2 → Bool) (dt : ℚ) (p : Player) (score : ℕ)
    (col : Collectible) (tx ty : ℚ) (ha : p.alive = true) (hw : p.willDie = false) :
    (updatePlayer occ dt p score col tx ty).player =
      { p with willDie := playerWillDieFlag occ dt p, pos := nextPos p dt,
               trail := p.trail ++ [nextPos p dt] } := by
  simp only [updatePlayer, ha, hw, Bool.not_true, Bool.not_false, if_false, if_true,
    Bool.false_eq_true, Bool.true_eq_false]
  split_ifs <;> rfl

theorem updatePlayer_move_score (occ : Vec2 → Bool) (dt : ℚ) (p : Player) (score : ℕ)
    (col : Collectible) (tx ty : ℚ) (ha : p.alive = true) (hw : p.willDie = false) :
    (updatePlayer occ dt p score col tx ty).score =
      (if checkCollectibleCollision (nextPos p dt) col then score + 1 else score) := by
  simp only [updatePlayer, ha, hw, Bool.not_true, Bool.not_false, if_false, if_true,
    Bool.false_eq_true, Bool.true_eq_false]
  split_ifs <;> rfl

theorem updatePlayer_move_col (occ : Vec2 → Bool) (dt : ℚ) (p : Player) (score : ℕ)
    (col : Collectible) (tx ty : ℚ) (ha : p.alive = true) (hw : p.willDie = false) :
    (updatePlayer occ dt p score col tx ty).collectible =
      (if checkCollectibleCollision (nextPos p dt) col then spawnCollectible tx ty else col) := by
  simp only [updatePlayer, ha, hw, Bool.not_true, Bool.not_false, if_false, if_true,
    Bool.false_eq_true, Bool.true_eq_false]
  split_ifs <;> rfl

theorem updatePlayer_score_mono (occ : Vec2 → Bool) (dt : ℚ) (p : Player) (score : ℕ)
    (col : Collectible) (tx ty : ℚ) : score ≤ (updatePlayer occ dt p score col tx ty).score := by
  unfold updatePlayer
  split_ifs
  · simp
  · simp only []
    split <;> simp
  · simp

theorem simTick_player1_eq (inp : TickInput) (g : GameState) :
    (simTick inp g).player1 =
      { (updatePlayer inp.occ1 inp.dt g.player1 g.score1 g.collectible inp.col1x
          inp.col1y).player with
        trail :=
          (updateCircles inp.dt g.circles
            (updatePlayer inp.occ1 inp.dt g.player1 g.score1 g.collectible inp.col1x
              inp.col1y).player.trail
            (updatePlayer inp.occ2 inp.dt g.player2 g.score2
              (updatePlayer inp.occ1 inp.dt g.player1 g.score1 g.collectible inp.col1x
                inp.col1y).collectible inp.col2x inp.col2y).player.trail).trail1 } := by
  simp only [simTick, endOfRoundCheck_player1]

theorem simTick_player2_eq (inp : TickInput) (g : GameState) :
    (simTick inp g).player2 =
      { (updatePlayer inp.occ2 inp.dt g.player2 g.score2
          (updatePlayer inp.occ1 inp.dt g.player1 g.score1 g.collectible inp.col1x
            inp.col1y).collectible inp.col2x inp.col2y).player with
        trail :=
          (updateCircles inp.dt g.circles
            (updatePlayer inp.occ1 inp.dt g.player1 g.score1 g.collectible inp.col1x
              inp.col1y).player.trail
            (updatePlayer inp.occ2 inp.dt g.player2 g.score2
              (updatePlayer inp.occ1 inp.dt g.player1 g.score1 g.collectible inp.col1x
                inp.col1y).collectible inp.col2x inp.col2y).player.trail).trail2 } := by
  simp only [simTick, endOfRoundCheck_player2]

theorem updateCircle_radius (dt : ℚ) (c : Circle) : (updateCircle dt c).radius = c.radius := by
  simp only [updateCircle]
  split_ifs <;> rfl

theorem pruneTrail_sublist (c : Circle) (t : List Vec2) : List.Sublist (pruneTrail c t) t :=
  List.filter_sublist t

theorem updateCircles_trail1_sublist (dt : ℚ) (cs : List Circle) (t1 t2 : List Vec2) :
    List.Sublist (updateCircles dt cs t1 t2).trail1 t1 := by
  induction cs generalizing t1 t2 with
  | nil => exact List.Sublist.refl t1
  | cons c rest ih =>
    exact List.Sublist.trans (ih _ _) (pruneTrail_sublist _ t1)

theorem updateCircles_trail2_sublist (dt : ℚ) (cs : List Circle) (t1 t2 : List Vec2) :
    List.Sublist (updateCircles dt cs t1 t2).trail2 t2 := by
  induction cs generalizing t1 t2 with
  | nil => exact List.Sublist.refl t2
  | cons c rest ih =>
    exact List.Sublist.trans (ih _ _) (pruneTrail_sublist _ t2)

theorem simTick_score1_mono (inp : TickInput) (g : GameState) :
    g.score1 ≤ (simTick inp g).score1 := by
  simp only [simTick]
  have h1 := updatePlayer_score_mono inp.occ1 inp.dt g.player1 g.score1 g.collectible
    inp.col1x inp.col1y
  exact le_trans h1 (endOfRoundCheck_score1_mono_of_eq _ _ rfl)

theorem simTick_score2_mono (inp : TickInput) (g : GameState) :
    g.score2 ≤ (simTick inp g).score2 := by
  simp only [simTick]
  have h1 := updatePlayer_score_mono inp.occ2 inp.dt g.player2 g.score2
    (updatePlayer inp.occ1 inp.dt g.player1 g.score1 g.collectible inp.col1x
      inp.col1y).collectible inp.col2x inp.col2y
  exact le_trans h1 (endOfRoundCheck_score2_mono_of_eq _ _ rfl)

/-! Concrete fixtures used by counterexamples and witnesses. -/

/-- Occupancy oracle reporting an empty framebuffer. -/
def occFalse : Vec2 → Bool := fun _ => false

/-- The scenario of the spec: a player on the left wall heading left. -/
def c1Player : Player :=
  { pos := ⟨0, 240⟩, direction := ⟨-1, 0⟩, trail := [], alive := true,
    willDie := false, hasMoved := false }

/-- An opponent far from walls, hazard and collectible. -/
def c1Opponent : Player :=
  { pos := ⟨600, 400⟩, direction := ⟨1, 0⟩, trail := [], alive := true,
    willDie := false, hasMoved := false }

/-- A hazard far from both players. -/
def c1Circle : Circle := { pos := ⟨500, 100⟩, vel := ⟨300, 0⟩, radius := CIRCLE_RADIUS }

/-- Game state realizing the wall-death scenario. -/
def c1State : GameState :=
  { player1 := c1Player, player2 := c1Opponent, circles := [c1Circle],
    collectible := spawnCollectible 0 0, score1 := 0, score2 := 0,
    gameOver := false, gameOverScreen := false }

/-- Tick inputs for the wall-death scenario: `dt = 0.1`, empty framebuffer, no
hazard spawn. -/
def c1Input : TickInput :=
  { occ1 := occFalse, occ2 := occFalse, dt := 1 / 10, col1x := 0, col1y := 0,
    col2x := 0, col2y := 0, spawnExpired := false, spawnX := 0, spawnY := 0,
    spawnCos := 1, spawnSin := 0 }

/-- A game state with player 1 dead and player 2 alive, as after a lone death. -/
def gOneDead : GameState :=
  { player1 := { initialPlayer1 with alive := false }, player2 := initialPlayer2,
    circles := [c1Circle], collectible := spawnCollectible 0 0, score1 := 4, score2 := 7,
    gameOver := false, gameOverScreen := false }

/-- C2: at the round transition (lines 581-591), a lone death of player A awards
exactly `+3` to the surviving player B's score and leaves A's score unchanged,
and a simultaneous death of both players changes neither score. -/
theorem C2_round_bonus_scoring (g : GameState) :
    (g.player1.alive = false → g.player2.alive = true →
      (endOfRoundCheck g).score2 = g.score2 + 3 ∧ (endOfRoundCheck g).score1 = g.score1) ∧
    (g.player2.alive = false → g.player1.alive = true →
      (endOfRoundCheck g).score1 = g.score1 + 3 ∧ (endOfRoundCheck g).score2 = g.score2) ∧
    (g.player1.alive = false → g.player2.alive = false →
      (endOfRoundCheck g).score1 = g.score1 ∧ (endOfRoundCheck g).score2 = g.score2) := by
  refine ⟨fun h1 h2 => ?_, fun h1 h2 => ?_, fun h1 h2 => ?_⟩ <;>
    simp [endOfRoundCheck, h1, h2]

/-- Witness for C2 at a concrete state: player 1 dead, player 2 alive, scores
4-7; the bonus takes the survivor to 10 and leaves 4 untouched. -/
theorem C2_round_bonus_scoring_witness :
    (endOfRoundCheck gOneDead).score2 = gOneDead.score2 + 3 ∧
    (endOfRoundCheck gOneDead).score1 = gOneDead.score1 :=
  (C2_round_bonus_scoring gOneDead).1 rfl rfl

/-- C3: the round reset (lines 594-612) leaves both scores exactly as they
were while reinitializing the players, the hazard collection, the collectible
and both game-over flags; moreover no frame operation of the process ever
decreases (in particular never zeroes) a score. -/
theorem C3_reset_preserves_scores (g : GameState) (tx ty ca sa cx cy : ℚ) (f : FrameInput) :
    (resetRound g tx ty ca sa cx cy).score1 = g.score1 ∧
    (resetRound g tx ty ca sa cx cy).score2 = g.score2 ∧
    (resetRound g tx ty ca sa cx cy).player1 = initialPlayer1 ∧
    (resetRound g tx ty ca sa cx cy).player2 = initialPlayer2 ∧
    (resetRound g tx ty ca sa cx cy).circles = [spawnCircle tx ty ca sa] ∧
    (resetRound g tx ty ca sa cx cy).collectible = spawnCollectible cx cy ∧
    (resetRound g tx ty ca sa cx cy).gameOver = false ∧
    (resetRound g tx ty ca sa cx cy).gameOverScreen = false ∧
    g.score1 ≤ (frameStep f g).score1 ∧ g.score2 ≤ (frameStep f g).score2 := by
  refine ⟨rfl, rfl, rfl, rfl, rfl, rfl, rfl, rfl, ?_, ?_⟩ <;>
  · unfold frameStep
    split_ifs
    · first
      | exact simTick_score1_mono _ _
      | exact simTick_score2_mono _ _
    · exact le_refl _
    · exact le_refl _

/-- Structural invariants of a fresh round: one hazard, empty trails, both
players alive at the fixed mirrored starts with `willDie` and `hasMoved`
clear. -/
def freshRoundState (g : GameState) : Prop :=
  g.circles.length = 1 ∧
  g.player1.trail = [] ∧ g.player2.trail = [] ∧
  g.player1.alive = true ∧ g.player2.alive = true ∧
  g.player1.pos = ⟨100 * SCALE_X, HEIGHT / 2⟩ ∧
  g.player2.pos = ⟨WIDTH - 100 * SCALE_X, HEIGHT / 2⟩ ∧
  g.player1.willDie = false ∧ g.player2.willDie = false ∧
  g.player1.hasMoved = false ∧ g.player2.hasMoved = false

/-- C4: the structural postconditions hold after any reset regardless of the
random draws, at program start, and again after a second back-to-back reset;
with equal draws a second reset reproduces the first's result exactly. -/
theorem C4_reset_structural_postconditions (g : GameState)
    (tx ty ca sa cx cy tx2 ty2 ca2 sa2 cx2 cy2 : ℚ) :
    freshRoundState (resetRound g tx ty ca sa cx cy) ∧
    freshRoundState (initialState tx ty ca sa cx cy) ∧
    freshRoundState (resetRound (resetRound g tx ty ca sa cx cy) tx2 ty2 ca2 sa2 cx2 cy2) ∧
    resetRound (resetRound g tx ty ca sa cx cy) tx2 ty2 ca2 sa2 cx2 cy2 =
      resetRound g tx2 ty2 ca2 sa2 cx2 cy2 := by
  exact ⟨⟨rfl, rfl, rfl, rfl, rfl, rfl, rfl, rfl, rfl, rfl, rfl⟩,
    ⟨rfl, rfl, rfl, rfl, rfl, rfl, rfl, rfl, rfl, rfl, rfl⟩,
    ⟨rfl, rfl, rfl, rfl, rfl, rfl, rfl, rfl, rfl, rfl, rfl⟩, rfl⟩

/-- C7: while `hasMoved` is false the occupancy (trail/hazard) check is never
consulted, so the update is oblivious to the framebuffer oracle and `willDie`
can only be set by the wall test on the proposed position, which runs
regardless of `hasMoved`; when the wall test fires, the outcome is again
oracle-independent (the wall check takes priority). -/
theorem C7_premove_invincibility (occ occ2 : Vec2 → Bool) (dt : ℚ) (p : Player)
    (score : ℕ) (col : Collectible) (tx ty : ℚ) :
    (p.hasMoved = false →
      updatePlayer occ dt p score col tx ty = updatePlayer occ2 dt p score col tx ty) ∧
    (p.hasMoved = false → p.alive = true → p.willDie = false →
      (updatePlayer occ dt p score col tx ty).player.willDie = oobPos (nextPos p dt)) ∧
    (oobPos (nextPos p dt) = true →
      updatePlayer occ dt p score col tx ty = updatePlayer occ2 dt p score col tx ty) ∧
    (p.alive = true → p.willDie = false → oobPos (nextPos p dt) = true →
      (updatePlayer occ dt p score col tx ty).player.willDie = true) := by
  refine ⟨fun hm => ?_, fun hm ha hw => ?_, fun ho => ?_, fun ha hw ho => ?_⟩
  · have hf : playerWillDieFlag occ dt p = playerWillDieFlag occ2 dt p := by
      simp [playerWillDieFlag, hm]
    simp [updatePlayer, hf]
  · rw [updatePlayer_move_player occ dt p score col tx ty ha hw]
    by_cases ho : oobPos (nextPos p dt) = true <;>
      simp_all [playerWillDieFlag, hm, hw]
  · have hf : playerWillDieFlag occ dt p = playerWillDieFlag occ2 dt p := by
      simp [playerWillDieFlag, ho]
    simp [updatePlayer, hf]
  · rw [updatePlayer_move_player occ dt p score col tx ty ha hw]
    simp [playerWillDieFlag, ho]

/-- Witness for C7: the left-wall player with `hasMoved = false` and an
out-of-bounds proposal at `dt = 0.1`. -/
theorem C7_premove_invincibility_witness :
    (updatePlayer occFalse (1 / 10) c1Player 0 (spawnCollectible 0 0) 0 0 =
      updatePlayer (fun _ => true) (1 / 10) c1Player 0 (spawnCollectible 0 0) 0 0) ∧
    (updatePlayer occFalse (1 / 10) c1Player 0 (spawnCollectible 0 0) 0 0).player.willDie =
      oobPos (nextPos c1Player (1 / 10)) ∧
    (updatePlayer occFalse (1 / 10) c1Player 0 (spawnCollectible 0 0) 0 0).player.willDie =
      true := by
  obtain ⟨w1, w2, w3, w4⟩ :=
    C7_premove_invincibility occFalse (fun _ => true) (1 / 10) c1Player 0
      (spawnCollectible 0 0) 0 0
  exact ⟨w1 rfl, w2 rfl rfl rfl,
    w4 rfl rfl (by simp [oobPos, nextPos, c1Player, PLAYER_SPEED_eq, WIDTH, HEIGHT])⟩

/-- C10: a refutation of the in-range claim about `drawTrail`'s loop bound: at
the collision pass's `skipRecent = 5` on an empty trail, the `size_t`
subtraction underflows, the loop bound becomes `2^64 - 5` instead of `0`, the
loop body executes (iteration `i = 1` reads trail indices `0` and `1`), and
those indices are not within the trail's length `0`. -/
theorem C10_drawTrail_start_underflow :
    drawTrailStart 0 5 = 2 ^ 64 - 5 ∧
    drawTrailLoopRuns 0 5 1 = true ∧
    ¬ (1 : ℕ) < 0 ∧
    ¬ drawTrailStart 0 5 ≤ 0 := by
  refine ⟨by decide, by decide, by decide, by decide⟩

theorem clamp_mem (r e x : ℚ) (h : r ≤ e - r) :
    r ≤ max r (min (e - r) x) ∧ max r (min (e - r) x) ≤ e - r :=
  ⟨le_max_left _ _, max_le h (min_le_left _ _)⟩

theorem no_penetration_mem (r e x : ℚ) (h : ¬(x - r < 0 ∨ x + r > e)) :
    r ≤ x ∧ x ≤ e - r := by
  push_neg at h
  obtain ⟨h1, h2⟩ := h
  constructor <;> linarith

theorem c1Circle_radius_eq : c1Circle.radius = 45 := CIRCLE_RADIUS_eq

theorem c1Circle_radius_pos : 0 < c1Circle.radius := by
  rw [c1Circle_radius_eq]; norm_num

theorem c1Circle_diameter_le_WIDTH : 2 * c1Circle.radius ≤ WIDTH := by
  rw [c1Circle_radius_eq, WIDTH]; norm_num

theorem c1Circle_diameter_le_HEIGHT : 2 * c1Circle.radius ≤ HEIGHT := by
  rw [c1Circle_radius_eq, HEIGHT]; norm_num

/-- C5: hazard boundary reflection (lines 543-552) only flips velocity-component
signs, so the squared speed (hence the speed magnitude) is invariant; the
radius is never modified; and after the reflection step the center lies within
`[radius, WIDTH - radius] × [radius, HEIGHT - radius]` (for any hazard whose
diameter fits the field, as holds for every spawned hazard). -/
theorem C5_hazard_reflection (dt : ℚ) (c : Circle)
    (hW : 2 * c.radius ≤ WIDTH) (hH : 2 * c.radius ≤ HEIGHT) :
    ((updateCircle dt c).vel.x = c.vel.x ∨ (updateCircle dt c).vel.x = -c.vel.x) ∧
    ((updateCircle dt c).vel.y = c.vel.y ∨ (updateCircle dt c).vel.y = -c.vel.y) ∧
    (updateCircle dt c).vel.x ^ 2 + (updateCircle dt c).vel.y ^ 2 =
      c.vel.x ^ 2 + c.vel.y ^ 2 ∧
    Real.sqrt (((updateCircle dt c).vel.x : ℝ) ^ 2 + ((updateCircle dt c).vel.y : ℝ) ^ 2) =
      Real.sqrt ((c.vel.x : ℝ) ^ 2 + (c.vel.y : ℝ) ^ 2) ∧
    (updateCircle dt c).radius = c.radius ∧
    c.radius ≤ (updateCircle dt c).pos.x ∧ (updateCircle dt c).pos.x ≤ WIDTH - c.radius ∧
    c.radius ≤ (updateCircle dt c).pos.y ∧ (updateCircle dt c).pos.y ≤ HEIGHT - c.radius := by
  have hWr : c.radius ≤ WIDTH - c.radius := by linarith
  have hHr : c.radius ≤ HEIGHT - c.radius := by linarith
  simp only [updateCircle]
  split_ifs with h1 h2 h3
  · exact ⟨Or.inr rfl, Or.inr rfl, by ring, by push_cast; ring_nf, rfl,
      (clamp_mem _ _ _ hWr).1, (clamp_mem _ _ _ hWr).2,
      (clamp_mem _ _ _ hHr).1, (clamp_mem _ _ _ hHr).2⟩
  · exact ⟨Or.inr rfl, Or.inl rfl, by ring, by push_cast; ring_nf, rfl,
      (clamp_mem _ _ _ hWr).1, (clamp_mem _ _ _ hWr).2,
      (no_penetration_mem _ _ _ h2).1, (no_penetration_mem _ _ _ h2).2⟩
  · exact ⟨Or.inl rfl, Or.inr rfl, by ring, by push_cast; ring_nf, rfl,
      (no_penetration_mem _ _ _ h1).1, (no_penetration_mem _ _ _ h1).2,
      (clamp_mem _ _ _ hHr).1, (clamp_mem _ _ _ hHr).2⟩
  · exact ⟨Or.inl rfl, Or.inl rfl, by ring, by push_cast; ring_nf, rfl,
      (no_penetration_mem _ _ _ h1).1, (no_penetration_mem _ _ _ h1).2,
      (no_penetration_mem _ _ _ h3).1, (no_penetration_mem _ _ _ h3).2⟩

/-- Witness for C5 at a concrete hazard of the spawned radius moving at
`dt = 0.1`. -/
theorem C5_hazard_reflection_witness :
    2 * c1Circle.radius ≤ WIDTH ∧ 2 * c1Circle.radius ≤ HEIGHT ∧
    (((updateCircle (1 / 10) c1Circle).vel.x = c1Circle.vel.x ∨
        (updateCircle (1 / 10) c1Circle).vel.x = -c1Circle.vel.x) ∧
      ((updateCircle (1 / 10) c1Circle).vel.y = c1Circle.vel.y ∨
        (updateCircle (1 / 10) c1Circle).vel.y = -c1Circle.vel.y) ∧
      (updateCircle (1 / 10) c1Circle).vel.x ^ 2 + (updateCircle (1 / 10) c1Circle).vel.y ^ 2 =
        c1Circle.vel.x ^ 2 + c1Circle.vel.y ^ 2 ∧
      Real.sqrt (((updateCircle (1 / 10) c1Circle).vel.x : ℝ) ^ 2 +
          ((updateCircle (1 / 10) c1Circle).vel.y : ℝ) ^ 2) =
        Real.sqrt ((c1Circle.vel.x : ℝ) ^ 2 + (c1Circle.vel.y : ℝ) ^ 2) ∧
      (updateCircle (1 / 10) c1Circle).radius = c1Circle.radius ∧
      c1Circle.radius ≤ (updateCircle (1 / 10) c1Circle).pos.x ∧
      (updateCircle (1 / 10) c1Circle).pos.x ≤ WIDTH - c1Circle.radius ∧
      c1Circle.radius ≤ (updateCircle (1 / 10) c1Circle).pos.y ∧
      (updateCircle (1 / 10) c1Circle).pos.y ≤ HEIGHT - c1Circle.radius) := by
  exact ⟨c1Circle_diameter_le_WIDTH, c1Circle_diameter_le_HEIGHT,
    C5_hazard_reflection (1 / 10) c1Circle c1Circle_diameter_le_WIDTH
      c1Circle_diameter_le_HEIGHT⟩

theorem mem_pruneTrail (c : Circle) (t : List Vec2) (p : Vec2) :
    p ∈ pruneTrail c t ↔
      p ∈ t ∧ ¬ ((c.pos.x - p.x) * (c.pos.x - p.x) + (c.pos.y - p.y) * (c.pos.y - p.y) <
        c.radius * c.radius) := by
  simp [pruneTrail, List.mem_filter]

theorem dist_lt_radius_iff (c : Circle) (p : Vec2) (hr : 0 < c.radius) :
    Real.sqrt (((c.pos.x - p.x : ℚ) : ℝ) ^ 2 + ((c.pos.y - p.y : ℚ) : ℝ) ^ 2) <
      (c.radius : ℝ) ↔
      (c.pos.x - p.x) * (c.pos.x - p.x) + (c.pos.y - p.y) * (c.pos.y - p.y) <
        c.radius * c.radius := by
  rw [Real.sqrt_lt' (by exact_mod_cast hr)]
  rw [show ((c.radius : ℝ)) ^ 2 = ((c.radius * c.radius : ℚ) : ℝ) by push_cast; ring]
  rw [show (((c.pos.x - p.x : ℚ) : ℝ) ^ 2 + ((c.pos.y - p.y : ℚ) : ℝ) ^ 2) =
      (((c.pos.x - p.x) * (c.pos.x - p.x) + (c.pos.y - p.y) * (c.pos.y - p.y) : ℚ) : ℝ) by
    push_cast; ring]
  exact Rat.cast_lt

/-- C8: after a hazard advances (lines 543-552), the pruning pass
(lines 554-562) removes from either trail exactly those points whose distance
to the hazard's updated center is less than its radius, and the surviving
points keep their relative order (the pruned trail is a sublist, so segments
rebuilt from consecutive survivors respect the original order). -/
theorem C8_hazard_prunes_trails (dt : ℚ) (c : Circle) (t1 t2 : List Vec2)
    (hr : 0 < c.radius) :
    (∀ p : Vec2, p ∈ pruneTrail (updateCircle dt c) t1 ↔
      p ∈ t1 ∧ ¬ Real.sqrt ((((updateCircle dt c).pos.x - p.x : ℚ) : ℝ) ^ 2 +
          (((updateCircle dt c).pos.y - p.y : ℚ) : ℝ) ^ 2) < ((updateCircle dt c).radius : ℝ)) ∧
    (∀ p : Vec2, p ∈ pruneTrail (updateCircle dt c) t2 ↔
      p ∈ t2 ∧ ¬ Real.sqrt ((((updateCircle dt c).pos.x - p.x : ℚ) : ℝ) ^ 2 +
          (((updateCircle dt c).pos.y - p.y : ℚ) : ℝ) ^ 2) < ((updateCircle dt c).radius : ℝ)) ∧
    List.Sublist (pruneTrail (updateCircle dt c) t1) t1 ∧
    List.Sublist (pruneTrail (updateCircle dt c) t2) t2 := by
  have hr2 : 0 < (updateCircle dt c).radius := by
    rw [updateCircle_radius]; exact hr
  refine ⟨fun p => ?_, fun p => ?_, pruneTrail_sublist _ _, pruneTrail_sublist _ _⟩ <;>
    rw [mem_pruneTrail, dist_lt_radius_iff _ _ hr2]

/-- Witness for C8: the concrete hazard of the scenario fixtures, pruning a
one-point trail and an empty trail. -/
theorem C8_hazard_prunes_trails_witness :
    0 < c1Circle.radius ∧
    ((∀ p : Vec2, p ∈ pruneTrail (updateCircle (1 / 10) c1Circle) [Vec2.mk 500 130] ↔
      p ∈ [Vec2.mk 500 130] ∧
        ¬ Real.sqrt ((((updateCircle (1 / 10) c1Circle).pos.x - p.x : ℚ) : ℝ) ^ 2 +
            (((updateCircle (1 / 10) c1Circle).pos.y - p.y : ℚ) : ℝ) ^ 2) <
          ((updateCircle (1 / 10) c1Circle).radius : ℝ)) ∧
    (∀ p : Vec2, p ∈ pruneTrail (updateCircle (1 / 10) c1Circle) ([] : List Vec2) ↔
      p ∈ ([] : List Vec2) ∧
        ¬ Real.sqrt ((((updateCircle (1 / 10) c1Circle).pos.x - p.x : ℚ) : ℝ) ^ 2 +
            (((updateCircle (1 / 10) c1Circle).pos.y - p.y : ℚ) : ℝ) ^ 2) <
          ((updateCircle (1 / 10) c1Circle).radius : ℝ)) ∧
    List.Sublist (pruneTrail (updateCircle (1 / 10) c1Circle) [Vec2.mk 500 130])
      [Vec2.mk 500 130] ∧
    List.Sublist (pruneTrail (updateCircle (1 / 10) c1Circle) ([] : List Vec2))
      ([] : List Vec2)) := by
  exact ⟨c1Circle_radius_pos,
    C8_hazard_prunes_trails (1 / 10) c1Circle [Vec2.mk 500 130] [] c1Circle_radius_pos⟩

theorem random_float_bounds (lo hi t : ℚ) (hlh : lo ≤ hi) (h0 : 0 ≤ t) (h1 : t ≤ 1) :
    lo ≤ random_float lo hi t ∧ random_float lo hi t ≤ hi := by
  unfold random_float
  constructor
  · nlinarith
  · nlinarith

/-- C9: pickup detection is an axis-aligned box test around the collectible's
position using only the smallest (pickup) extent `size`, ignoring the ring and
backing extents; a live, committing player whose committed position passes the
test gets exactly one `+1` score increment and exactly one respawned
collectible that tick (and no increment or respawn otherwise); and the
respawned collectible's position keeps the full backing square inside the
field on each axis whose draw lies in `[0,1]`. -/
theorem C9_collectible_pickup (occ : Vec2 → Bool) (dt : ℚ) (p : Player) (score : ℕ)
    (col col2 : Collectible) (tx ty : ℚ)
    (ha : p.alive = true) (hw : p.willDie = false) :
    (checkCollectibleCollision (nextPos p dt) col = true →
      (updatePlayer occ dt p score col tx ty).score = score + 1 ∧
      (updatePlayer occ dt p score col tx ty).collectible = spawnCollectible tx ty) ∧
    (checkCollectibleCollision (nextPos p dt) col = false →
      (updatePlayer occ dt p score col tx ty).score = score ∧
      (updatePlayer occ dt p score col tx ty).collectible = col) ∧
    (col.pos = col2.pos → col.size = col2.size →
      checkCollectibleCollision (nextPos p dt) col =
        checkCollectibleCollision (nextPos p dt) col2) ∧
    (checkCollectibleCollision (nextPos p dt) col = true ↔
      (nextPos p dt).x ≥ col.pos.x - col.size / 2 ∧
      (nextPos p dt).x ≤ col.pos.x + col.size / 2 ∧
      (nextPos p dt).y ≥ col.pos.y - col.size / 2 ∧
      (nextPos p dt).y ≤ col.pos.y + col.size / 2) ∧
    (0 ≤ tx → tx ≤ 1 →
      BLACK_SQUARE_SIZE / 2 ≤ (spawnCollectible tx ty).pos.x ∧
      (spawnCollectible tx ty).pos.x ≤ WIDTH - BLACK_SQUARE_SIZE / 2) ∧
    (0 ≤ ty → ty ≤ 1 →
      BLACK_SQUARE_SIZE / 2 ≤ (spawnCollectible tx ty).pos.y ∧
      (spawnCollectible tx ty).pos.y ≤ HEIGHT - BLACK_SQUARE_SIZE / 2) := by
  refine ⟨fun h => ?_, fun h => ?_, fun hp hs => ?_, ?_, fun h0 h1 => ?_, fun h0 h1 => ?_⟩
  · rw [updatePlayer_move_score occ dt p score col tx ty ha hw,
      updatePlayer_move_col occ dt p score col tx ty ha hw]
    simp [h]
  · rw [updatePlayer_move_score occ dt p score col tx ty ha hw,
      updatePlayer_move_col occ dt p score col tx ty ha hw]
    simp [h]
  · simp [checkCollectibleCollision, hp, hs]
  · simp [checkCollectibleCollision, ge_iff_le, and_assoc]
  · exact random_float_bounds _ _ tx
      (by rw [BLACK_SQUARE_SIZE_eq, WIDTH]; norm_num) h0 h1
  · exact random_float_bounds _ _ ty
      (by rw [BLACK_SQUARE_SIZE_eq, HEIGHT]; norm_num) h0 h1

theorem simTick_player1_alive (inp : TickInput) (g : GameState) :
    (simTick inp g).player1.alive =
      (updatePlayer inp.occ1 inp.dt g.player1 g.score1 g.collectible inp.col1x
        inp.col1y).player.alive := by
  rw [simTick_player1_eq]

theorem simTick_player1_willDie (inp : TickInput) (g : GameState) :
    (simTick inp g).player1.willDie =
      (updatePlayer inp.occ1 inp.dt g.player1 g.score1 g.collectible inp.col1x
        inp.col1y).player.willDie := by
  rw [simTick_player1_eq]

theorem simTick_player1_pos (inp : TickInput) (g : GameState) :
    (simTick inp g).player1.pos =
      (updatePlayer inp.occ1 inp.dt g.player1 g.score1 g.collectible inp.col1x
        inp.col1y).player.pos := by
  rw [simTick_player1_eq]

theorem simTick_player2_alive (inp : TickInput) (g : GameState) :
    (simTick inp g).player2.alive =
      (updatePlayer inp.occ2 inp.dt g.player2 g.score2
        (updatePlayer inp.occ1 inp.dt g.player1 g.score1 g.collectible inp.col1x
          inp.col1y).collectible inp.col2x inp.col2y).player.alive := by
  rw [simTick_player2_eq]

theorem simTick_player2_willDie (inp : TickInput) (g : GameState) :
    (simTick inp g).player2.willDie =
      (updatePlayer inp.occ2 inp.dt g.player2 g.score2
        (updatePlayer inp.occ1 inp.dt g.player1 g.score1 g.collectible inp.col1x
          inp.col1y).collectible inp.col2x inp.col2y).player.willDie := by
  rw [simTick_player2_eq]

theorem simTick_player2_pos (inp : TickInput) (g : GameState) :
    (simTick inp g).player2.pos =
      (updatePlayer inp.occ2 inp.dt g.player2 g.score2
        (updatePlayer inp.occ1 inp.dt g.player1 g.score1 g.collectible inp.col1x
          inp.col1y).collectible inp.col2x inp.col2y).player.pos := by
  rw [simTick_player2_eq]

/-- Counterexample to C1's bounds part: starting the spec's own scenario
(player 1 on the left wall heading left, `dt = 0.1`), after one simulation
tick the player is still alive, is only marked `willDie`, and its committed
position has `x = -20 < 0` — the out-of-bounds proposal is committed, not
rejected, so a committed position does lie outside `[0,WIDTH] × [0,HEIGHT]`. -/
theorem C1_commits_out_of_bounds_cex :
    (simTick c1Input c1State).player1.alive = true ∧
    (simTick c1Input c1State).player1.willDie = true ∧
    (simTick c1Input c1State).player1.pos.x < 0 := by
  have hup := updatePlayer_move_player c1Input.occ1 c1Input.dt c1State.player1
    c1State.score1 c1State.collectible c1Input.col1x c1Input.col1y rfl rfl
  refine ⟨?_, ?_, ?_⟩
  · rw [simTick_player1_alive, hup]
    rfl
  · rw [simTick_player1_willDie, hup]
    show playerWillDieFlag c1Input.occ1 c1Input.dt c1State.player1 = true
    norm_num [playerWillDieFlag, oobPos, nextPos, c1State, c1Player, c1Input,
      PLAYER_SPEED_eq, WIDTH, HEIGHT]
  · rw [simTick_player1_pos, hup]
    show (nextPos c1State.player1 c1Input.dt).x < 0
    norm_num [nextPos, c1State, c1Player, c1Input, PLAYER_SPEED_eq]

/-- C1 as amended: an in-bounds proposal commits an in-bounds position, while
an out-of-bounds proposal is still committed unchanged that tick (so the
committed position can leave the rectangle) with `willDie` set, and on the
next simulation tick the player's `alive` flag becomes false; symmetrically
for both players. -/
theorem C1_wall_death_amended (inp inp2 : TickInput) (g : GameState)
    (ha1 : g.player1.alive = true) (hw1 : g.player1.willDie = false)
    (ha2 : g.player2.alive = true) (hw2 : g.player2.willDie = false) :
    (oobPos (nextPos g.player1 inp.dt) = false →
      0 ≤ (simTick inp g).player1.pos.x ∧ (simTick inp g).player1.pos.x ≤ WIDTH ∧
      0 ≤ (simTick inp g).player1.pos.y ∧ (simTick inp g).player1.pos.y ≤ HEIGHT) ∧
    (oobPos (nextPos g.player1 inp.dt) = true →
      (simTick inp g).player1.willDie = true ∧
      (simTick inp g).player1.pos = nextPos g.player1 inp.dt ∧
      (simTick inp2 (simTick inp g)).player1.alive = false) ∧
    (oobPos (nextPos g.player2 inp.dt) = false →
      0 ≤ (simTick inp g).player2.pos.x ∧ (simTick inp g).player2.pos.x ≤ WIDTH ∧
      0 ≤ (simTick inp g).player2.pos.y ∧ (simTick inp g).player2.pos.y ≤ HEIGHT) ∧
    (oobPos (nextPos g.player2 inp.dt) = true →
      (simTick inp g).player2.willDie = true ∧
      (simTick inp g).player2.pos = nextPos g.player2 inp.dt ∧
      (simTick inp2 (simTick inp g)).player2.alive = false) := by
  have u1 := updatePlayer_move_player inp.occ1 inp.dt g.player1 g.score1 g.collectible
    inp.col1x inp.col1y ha1 hw1
  have u2 := updatePlayer_move_player inp.occ2 inp.dt g.player2 g.score2
    (updatePlayer inp.occ1 inp.dt g.player1 g.score1 g.collectible inp.col1x
      inp.col1y).collectible inp.col2x inp.col2y ha2 hw2
  have hpos1 : (simTick inp g).player1.pos = nextPos g.player1 inp.dt := by
    rw [simTick_player1_pos, u1]
  have hpos2 : (simTick inp g).player2.pos = nextPos g.player2 inp.dt := by
    rw [simTick_player2_pos, u2]
  have halive1 : (simTick inp g).player1.alive = true := by
    rw [simTick_player1_alive, u1]; exact ha1
  have halive2 : (simTick inp g).player2.alive = true := by
    rw [simTick_player2_alive, u2]; exact ha2
  refine ⟨fun ho => ?_, fun ho => ?_, fun ho => ?_, fun ho => ?_⟩
  · rw [hpos1]
    simp only [oobPos, Bool.or_eq_false_iff, decide_eq_false_iff_not, not_lt] at ho
    exact ⟨ho.1.1.1, ho.1.1.2, ho.1.2, ho.2⟩
  · have hwd : (simTick inp g).player1.willDie = true := by
      rw [simTick_player1_willDie, u1]
      show playerWillDieFlag inp.occ1 inp.dt g.player1 = true
      simp [playerWillDieFlag, ho]
    refine ⟨hwd, hpos1, ?_⟩
    rw [simTick_player1_alive,
      updatePlayer_doomed inp2.occ1 inp2.dt (simTick inp g).player1
        (simTick inp g).score1 (simTick inp g).collectible inp2.col1x inp2.col1y
        halive1 hwd]
  · rw [hpos2]
    simp only [oobPos, Bool.or_eq_false_iff, decide_eq_false_iff_not, not_lt] at ho
    exact ⟨ho.1.1.1, ho.1.1.2, ho.1.2, ho.2⟩
  · have hwd : (simTick inp g).player2.willDie = true := by
      rw [simTick_player2_willDie, u2]
      show playerWillDieFlag inp.occ2 inp.dt g.player2 = true
      simp [playerWillDieFlag, ho]
    refine ⟨hwd, hpos2, ?_⟩
    rw [simTick_player2_alive,
      updatePlayer_doomed inp2.occ2 inp2.dt (simTick inp g).player2
        (simTick inp g).score2
        (updatePlayer inp2.occ1 inp2.dt (simTick inp g).player1 (simTick inp g).score1
          (simTick inp g).collectible inp2.col1x inp2.col1y).collectible
        inp2.col2x inp2.col2y halive2 hwd]

/-- Witness for the amended C1, at the wall-death scenario state. -/
theorem C1_wall_death_amended_witness :
    c1State.player1.alive = true ∧ c1State.player1.willDie = false ∧
    c1State.player2.alive = true ∧ c1State.player2.willDie = false ∧
    ((oobPos (nextPos c1State.player1 c1Input.dt) = false →
      0 ≤ (simTick c1Input c1State).player1.pos.x ∧
      (simTick c1Input c1State).player1.pos.x ≤ WIDTH ∧
      0 ≤ (simTick c1Input c1State).player1.pos.y ∧
      (simTick c1Input c1State).player1.pos.y ≤ HEIGHT) ∧
    (oobPos (nextPos c1State.player1 c1Input.dt) = true →
      (simTick c1Input c1State).player1.willDie = true ∧
      (simTick c1Input c1State).player1.pos = nextPos c1State.player1 c1Input.dt ∧
      (simTick c1Input (simTick c1Input c1State)).player1.alive = false) ∧
    (oobPos (nextPos c1State.player2 c1Input.dt) = false →
      0 ≤ (simTick c1Input c1State).player2.pos.x ∧
      (simTick c1Input c1State).player2.pos.x ≤ WIDTH ∧
      0 ≤ (simTick c1Input c1State).player2.pos.y ∧
      (simTick c1Input c1State).player2.pos.y ≤ HEIGHT) ∧
    (oobPos (nextPos c1State.player2 c1Input.dt) = true →
      (simTick c1Input c1State).player2.willDie = true ∧
      (simTick c1Input c1State).player2.pos = nextPos c1State.player2 c1Input.dt ∧
      (simTick c1Input (simTick c1Input c1State)).player2.alive = false)) :=
  ⟨rfl, rfl, rfl, rfl, C1_wall_death_amended c1Input c1Input c1State rfl rfl rfl rfl⟩

/-- A player walking just ahead of a hazard, with a three-point trail inside
the hazard's sweep. -/
def c6Player : Player :=
  { pos := ⟨303, 240⟩, direction := ⟨1, 0⟩,
    trail := [⟨300, 240⟩, ⟨301, 240⟩, ⟨302, 240⟩], alive := true,
    willDie := false, hasMoved := false }

/-- An opponent far from walls, hazard and collectible. -/
def c6Opponent : Player :=
  { pos := ⟨600, 100⟩, direction := ⟨1, 0⟩, trail := [], alive := true,
    willDie := false, hasMoved := false }

/-- A hazard about to sweep over `c6Player`'s trail. -/
def c6Circle : Circle := { pos := ⟨300, 240⟩, vel := ⟨300, 0⟩, radius := CIRCLE_RADIUS }

/-- Game state realizing the trail-pruning scenario. -/
def c6State : GameState :=
  { player1 := c6Player, player2 := c6Opponent, circles := [c6Circle],
    collectible := spawnCollectible 0 0, score1 := 0, score2 := 0,
    gameOver := false, gameOverScreen := false }

/-- Tick inputs for the trail-pruning scenario: `dt = 0.01`, empty framebuffer,
no hazard spawn. -/
def c6Input : TickInput :=
  { occ1 := occFalse, occ2 := occFalse, dt := 1 / 100, col1x := 0, col1y := 0,
    col2x := 0, col2y := 0, spawnExpired := false, spawnX := 0, spawnY := 0,
    spawnCos := 1, spawnSin := 0 }

/-- Counterexample to C6's monotonicity part: across one simulation tick the
living player 1's trail length drops from 3 to 0 — the hazard sweeps over the
whole trail (including the freshly appended point) and prunes it — so trail
length is not non-decreasing while the player is alive, and the trail can
become empty without a round reset. -/
theorem C6_trail_shrinks_cex :
    (simTick c6Input c6State).player1.alive = true ∧
    c6State.player1.trail.length = 3 ∧
    (simTick c6Input c6State).player1.trail.length = 0 := by
  have hup := updatePlayer_move_player c6Input.occ1 c6Input.dt c6State.player1
    c6State.score1 c6State.collectible c6Input.col1x c6Input.col1y rfl rfl
  refine ⟨?_, rfl, ?_⟩
  · rw [simTick_player1_alive, hup]
    rfl
  · rw [simTick_player1_eq]
    norm_num [updateCircles, updateCircle, pruneTrail, List.filter, nextPos,
      updatePlayer, playerWillDieFlag, oobPos, checkCollectibleCollision,
      spawnCollectible, random_float, c6State, c6Player, c6Opponent, c6Circle,
      c6Input, occFalse, PLAYER_SPEED_eq, CIRCLE_RADIUS_eq, BLACK_SQUARE_SIZE_eq,
      COLLECTIBLE_SIZE_eq, BLACK_CIRCLE_SIZE_eq, WIDTH, HEIGHT]

/-- C6 as amended: a live, committing player's trail grows by exactly the one
appended point during the player phase; hazard pruning in the same tick may
remove any number of points but only ever removes points (the post-tick trail
is a sublist of the appended trail, so only pruning can shorten it); and the
round reset clears both trails to empty. -/
theorem C6_trail_append_prune_reset (occ : Vec2 → Bool) (dt : ℚ) (p : Player)
    (score : ℕ) (col : Collectible) (tx ty : ℚ) (c : Circle) (t : List Vec2)
    (inp : TickInput) (g : GameState) (rx ry rca rsa rcx rcy : ℚ)
    (ha : p.alive = true) (hw : p.willDie = false) :
    (updatePlayer occ dt p score col tx ty).player.trail = p.trail ++ [nextPos p dt] ∧
    (updatePlayer occ dt p score col tx ty).player.trail.length = p.trail.length + 1 ∧
    List.Sublist (pruneTrail c t) t ∧
    (pruneTrail c t).length ≤ t.length ∧
    List.Sublist (simTick inp g).player1.trail
      (updatePlayer inp.occ1 inp.dt g.player1 g.score1 g.collectible inp.col1x
        inp.col1y).player.trail ∧
    List.Sublist (simTick inp g).player2.trail
      (updatePlayer inp.occ2 inp.dt g.player2 g.score2
        (updatePlayer inp.occ1 inp.dt g.player1 g.score1 g.collectible inp.col1x
          inp.col1y).collectible inp.col2x inp.col2y).player.trail ∧
    (resetRound g rx ry rca rsa rcx rcy).player1.trail = [] ∧
    (resetRound g rx ry rca rsa rcx rcy).player2.trail = [] := by
  have hu := updatePlayer_move_player occ dt p score col tx ty ha hw
  refine ⟨?_, ?_, pruneTrail_sublist c t, (pruneTrail_sublist c t).length_le,
    ?_, ?_, rfl, rfl⟩
  · rw [hu]
  · rw [hu]
    simp
  · rw [simTick_player1_eq]
    exact updateCircles_trail1_sublist _ _ _ _
  · rw [simTick_player2_eq]
    exact updateCircles_trail2_sublist _ _ _ _

/-- Witness for the amended C6 at the trail-pruning scenario's inputs. -/
theorem C6_trail_append_prune_reset_witness :
    c6Player.alive = true ∧ c6Player.willDie = false ∧
    ((updatePlayer occFalse (1 / 100) c6Player 0 (spawnCollectible 0 0) 0 0).player.trail =
      c6Player.trail ++ [nextPos c6Player (1 / 100)] ∧
    (updatePlayer occFalse (1 / 100) c6Player 0
        (spawnCollectible 0 0) 0 0).player.trail.length = c6Player.trail.length + 1 ∧
    List.Sublist (pruneTrail c6Circle [Vec2.mk 300 240]) [Vec2.mk 300 240] ∧
    (pruneTrail c6Circle [Vec2.mk 300 240]).length ≤ ([Vec2.mk 300 240] : List Vec2).length ∧
    List.Sublist (simTick c6Input c6State).player1.trail
      (updatePlayer c6Input.occ1 c6Input.dt c6State.player1 c6State.score1
        c6State.collectible c6Input.col1x c6Input.col1y).player.trail ∧
    List.Sublist (simTick c6Input c6State).player2.trail
      (updatePlayer c6Input.occ2 c6Input.dt c6State.player2 c6State.score2
        (updatePlayer c6Input.occ1 c6Input.dt c6State.player1 c6State.score1
          c6State.collectible c6Input.col1x c6Input.col1y).collectible
        c6Input.col2x c6Input.col2y).player.trail ∧
    (resetRound c6State 0 0 1 0 0 0).player1.trail = [] ∧
    (resetRound c6State 0 0 1 0 0 0).player2.trail = []) :=
  ⟨rfl, rfl,
    C6_trail_append_prune_reset occFalse (1 / 100) c6Player 0 (spawnCollectible 0 0)
      0 0 c6Circle [Vec2.mk 300 240] c6Input c6State 0 0 1 0 0 0 rfl rfl⟩

/-- A player one step short of the collectible spawned from zero draws. -/
def c9Player : Player :=
  { pos := ⟨100, 225 / 2⟩, direction := ⟨1, 0⟩, trail := [], alive := true,
    willDie := false, hasMoved := false }

/-- Witness for C9: the concrete player steps to `(110, 112.5)`, inside the
pickup box of the collectible at `(112.5, 112.5)`. -/
theorem C9_collectible_pickup_witness :
    c9Player.alive = true ∧ c9Player.willDie = false ∧
    ((checkCollectibleCollision (nextPos c9Player (1 / 20)) (spawnCollectible 0 0) = true →
      (updatePlayer occFalse (1 / 20) c9Player 0 (spawnCollectible 0 0) 0 1).score = 0 + 1 ∧
      (updatePlayer occFalse (1 / 20) c9Player 0 (spawnCollectible 0 0) 0 1).collectible =
        spawnCollectible 0 1) ∧
    (checkCollectibleCollision (nextPos c9Player (1 / 20)) (spawnCollectible 0 0) = false →
      (updatePlayer occFalse (1 / 20) c9Player 0 (spawnCollectible 0 0) 0 1).score = 0 ∧
      (updatePlayer occFalse (1 / 20) c9Player 0 (spawnCollectible 0 0) 0 1).collectible =
        spawnCollectible 0 0) ∧
    ((spawnCollectible 0 0).pos = (spawnCollectible (1 / 2) (1 / 2)).pos →
      (spawnCollectible 0 0).size = (spawnCollectible (1 / 2) (1 / 2)).size →
      checkCollectibleCollision (nextPos c9Player (1 / 20)) (spawnCollectible 0 0) =
        checkCollectibleCollision (nextPos c9Player (1 / 20)) (spawnCollectible (1 / 2) (1 / 2))) ∧
    (checkCollectibleCollision (nextPos c9Player (1 / 20)) (spawnCollectible 0 0) = true ↔
      (nextPos c9Player (1 / 20)).x ≥
        (spawnCollectible 0 0).pos.x - (spawnCollectible 0 0).size / 2 ∧
      (nextPos c9Player (1 / 20)).x ≤
        (spawnCollectible 0 0).pos.x + (spawnCollectible 0 0).size / 2 ∧
      (nextPos c9Player (1 / 20)).y ≥
        (spawnCollectible 0 0).pos.y - (spawnCollectible 0 0).size / 2 ∧
      (nextPos c9Player (1 / 20)).y ≤
        (spawnCollectible 0 0).pos.y + (spawnCollectible 0 0).size / 2) ∧
    ((0 : ℚ) ≤ 0 → (0 : ℚ) ≤ 1 →
      BLACK_SQUARE_SIZE / 2 ≤ (spawnCollectible 0 1).pos.x ∧
      (spawnCollectible 0 1).pos.x ≤ WIDTH - BLACK_SQUARE_SIZE / 2) ∧
    ((0 : ℚ) ≤ 1 → (1 : ℚ) ≤ 1 →
      BLACK_SQUARE_SIZE / 2 ≤ (spawnCollectible 0 1).pos.y ∧
      (spawnCollectible 0 1).pos.y ≤ HEIGHT - BLACK_SQUARE_SIZE / 2)) :=
  ⟨rfl, rfl,
    C9_collectible_pickup occFalse (1 / 20) c9Player 0 (spawnCollectible 0 0)
      (spawnCollectible (1 / 2) (1 / 2)) 0 1 rfl rfl⟩

end LinesGame
